import Mathlib

/-!
Verification of the AI Task Poller & Visualization Resolver of the
botco_data_platform frontend (src/frontend/src/components/VideoPlayer.tsx),
the annotation overlay (InteractiveVideoPlayer.tsx) and the episode path
construction (App.tsx), as a shallow embedding in Lean.

JavaScript optional values are modelled with `Option`; JS truthiness of a
string-or-null value (`null`, `undefined` and `""` are falsy) is modelled
by `jsTruthyStrOpt`; interpolating a missing field into a template literal
produces the text "undefined", modelled by `jsFieldStr`.
-/

/-- Truthiness of a JS `string | null | undefined` value: absent and the
empty string are falsy, every other string is truthy. -/
def jsTruthyStrOpt : Option String → Bool
  | none => false
  | some s => if s = "" then false else true

/-- Interpolating a possibly-missing string field into a JS template
literal: a missing field renders as the text "undefined". -/
def jsFieldStr : Option String → String
  | none => "undefined"
  | some s => s

/-- `result.visualization` object of a task snapshot
(VideoPlayer.tsx, interface AITaskStatus, field `result`). -/
structure TaskVisualization where
  visualization_path : Option String
  deriving DecidableEq

/-- `result` object of a task snapshot. -/
structure TaskResult where
  visualization : Option TaskVisualization
  visualization_error : Option String
  deriving DecidableEq

/-- A task snapshot as delivered by the backend and cached by the client
(VideoPlayer.tsx, interface AITaskStatus). -/
structure AITaskStatus where
  status : String
  progress : ℚ
  result : Option TaskResult
  error : Option String
  deriving DecidableEq

/-- The AI session state held by the VideoPlayer component
(VideoPlayer.tsx, the `aiState` prop: runAI, aiTaskId, aiTaskStatus,
aiError). -/
structure AiState where
  runAI : Bool
  aiTaskId : Option String
  aiTaskStatus : Option AITaskStatus
  aiError : Option String
  deriving DecidableEq

/-- `aiTaskStatus?.status === q` for an optional snapshot. -/
def statusIs (st : Option AITaskStatus) (q : String) : Bool :=
  match st with
  | none => false
  | some t => t.status == q

/-- VideoPlayer.tsx `getVisualizationUrl` (lines 160-173): returns
`http://localhost:8000` ++ `result.visualization.visualization_path`
when the snapshot status is COMPLETED and `result.visualization` is a
present (truthy) object, and null otherwise.  The path field itself is
interpolated unchecked. -/
def getVisualizationUrl (st : Option AITaskStatus) : Option String :=
  match st with
  | none => none
  | some t =>
    match t.result with
    | none => none
    | some r =>
      match r.visualization with
      | none => none
      | some v =>
        if t.status = "COMPLETED" then
          some ("http://localhost:8000" ++ jsFieldStr v.visualization_path)
        else none

/-- The spec-side condition of claim C1, from the spec's words:
`result.visualization.visualization_path` is present and non-empty. -/
def specVizPathPresent (st : Option AITaskStatus) : Bool :=
  match st with
  | none => false
  | some t =>
    match t.result with
    | none => false
    | some r =>
      match r.visualization with
      | none => false
      | some v => jsTruthyStrOpt v.visualization_path

/-- A COMPLETED snapshot whose result carries a visualization object with
no `visualization_path` field. -/
def c1Snapshot : AITaskStatus :=
  { status := "COMPLETED", progress := 1
    result := some { visualization := some { visualization_path := none }
                     visualization_error := none }
    error := none }

/-- C1 counterexample: on a COMPLETED snapshot whose `result.visualization`
object has no `visualization_path`, `getVisualizationUrl` still returns a
URL (with the text "undefined" appended), so the claimed equivalence
"URL exactly when COMPLETED and the path is present and non-empty" is
false at this snapshot. -/
theorem getVisualizationUrl_iff_nonempty_path_cex :
    ¬ ((getVisualizationUrl (some c1Snapshot)).isSome = true ↔
       (statusIs (some c1Snapshot) "COMPLETED" = true ∧
        specVizPathPresent (some c1Snapshot) = true)) := by
  decide

/-- C1 (amended): `getVisualizationUrl` returns a URL exactly when the
snapshot exists, its status is COMPLETED, and its result carries a
visualization object — whether or not that object has a non-empty
`visualization_path`. -/
theorem getVisualizationUrl_isSome_iff (st : Option AITaskStatus) :
    (getVisualizationUrl st).isSome = true ↔
      (∃ t, st = some t ∧ t.status = "COMPLETED" ∧
        ∃ r, t.result = some r ∧ r.visualization.isSome = true) := by
  constructor
  · intro h
    match st with
    | none => simp [getVisualizationUrl] at h
    | some t =>
      refine ⟨t, rfl, ?_⟩
      match hr : t.result with
      | none => simp [getVisualizationUrl, hr] at h
      | some r =>
        match hv : r.visualization with
        | none => simp [getVisualizationUrl, hr, hv] at h
        | some v =>
          simp only [getVisualizationUrl, hr, hv] at h
          by_cases hc : t.status = "COMPLETED"
          · exact ⟨hc, r, rfl, by simp [hv]⟩
          · simp [hc] at h
  · rintro ⟨t, rfl, hc, r, hr, hv⟩
    match hvz : r.visualization with
    | none => simp [hvz] at hv
    | some v => simp [getVisualizationUrl, hr, hvz, hc]

/-- Whether a snapshot status is terminal (COMPLETED or FAILED). -/
def isTerminalStatus (st : Option AITaskStatus) : Bool :=
  statusIs st "COMPLETED" || statusIs st "FAILED"

/-- The guard of the polling useEffect (VideoPlayer.tsx lines 62-71): a
poll interval runs exactly when a task id is held and the last known
status is RUNNING or PENDING. -/
def pollGuard (s : AiState) : Bool :=
  jsTruthyStrOpt s.aiTaskId &&
    (statusIs s.aiTaskStatus "RUNNING" || statusIs s.aiTaskStatus "PENDING")

/-- C2: from any session state whose last known status is terminal
(COMPLETED or FAILED), the polling guard is false, so the polling step is
never taken again — no further poll request is issued for the held
taskId. -/
theorem pollGuard_false_of_terminal (s : AiState)
    (h : isTerminalStatus s.aiTaskStatus = true) : pollGuard s = false := by
  match hst : s.aiTaskStatus with
  | none => simp [isTerminalStatus, statusIs, hst] at h
  | some t =>
    simp only [isTerminalStatus, statusIs, hst, Bool.or_eq_true, beq_iff_eq] at h
    simp only [pollGuard, statusIs, hst, Bool.and_eq_false_iff, Bool.or_eq_false_iff]
    rcases h with h | h <;> rw [h] <;> exact Or.inr ⟨by decide, by decide⟩

/-- Witness for C2 at a concrete COMPLETED session. -/
theorem pollGuard_false_of_terminal_witness :
    isTerminalStatus (some c1Snapshot) = true ∧
      pollGuard { runAI := true, aiTaskId := some "abc123",
                  aiTaskStatus := some c1Snapshot, aiError := none } = false :=
  ⟨by decide,
   pollGuard_false_of_terminal
     { runAI := true, aiTaskId := some "abc123",
       aiTaskStatus := some c1Snapshot, aiError := none } (by decide)⟩

/-- The `data` object of a submit response:
`{ success, data: { task_id }, message }`. -/
structure SubmitData where
  task_id : Option String
  deriving DecidableEq

/-- The parsed body of a submit response. -/
structure SubmitResponse where
  success : Bool
  data : Option SubmitData
  message : Option String
  deriving DecidableEq

/-- Outcome of one submit round-trip: a thrown error (network failure or
body that fails to parse; carries `error.message`), a non-2xx HTTP status
(the code throws `HTTP error! status: ...`), or a parsed body. -/
inductive SubmitOutcome where
  | thrown (msg : String)
  | httpError (statusCode : Nat)
  | ok (d : SubmitResponse)
  deriving DecidableEq

/-- The message of the error thrown on a parsed but unsuccessful submit
body: `data.message || 'Failed to start AI processing'`. -/
def submitFailMessage (d : SubmitResponse) : String :=
  match d.message with
  | none => "Failed to start AI processing"
  | some m => if m = "" then "Failed to start AI processing" else m

/-- VideoPlayer.tsx `startAIProcessing` (lines 73-125) as a state
transformer over the submit outcome: first clears `aiError`; on a parsed
body with `success` and a truthy `data.task_id` it stores the task id and
a synthesized PENDING snapshot with progress 0; every other outcome lands
in the catch block, which stores the error message. -/
def startAIProcessing (s : AiState) (o : SubmitOutcome) : AiState :=
  let s0 : AiState := { s with aiError := none }
  match o with
  | .thrown msg => { s0 with aiError := some msg }
  | .httpError c => { s0 with aiError := some ("HTTP error! status: " ++ toString c) }
  | .ok d =>
    if d.success && jsTruthyStrOpt (d.data.bind SubmitData.task_id) then
      { s0 with
        aiTaskId := d.data.bind SubmitData.task_id
        aiTaskStatus := some { status := "PENDING", progress := 0
                               result := none, error := none } }
    else
      { s0 with aiError := some (submitFailMessage d) }

/-- Whether a submit outcome is a failure: thrown, non-2xx, or a parsed
body without a truthy `success` and `data.task_id`. -/
def isSubmitFailure (o : SubmitOutcome) : Bool :=
  match o with
  | .thrown _ => true
  | .httpError _ => true
  | .ok d => !(d.success && jsTruthyStrOpt (d.data.bind SubmitData.task_id))

/-- A fresh session with the toggle on and no task, the state from which
the effect calls `startAIProcessing`. -/
def freshEnabledSession : AiState :=
  { runAI := true, aiTaskId := none, aiTaskStatus := none, aiError := none }

/-- C3 counterexample: an HTTP 500 on submit sets the error and assigns no
task id, but does NOT force the toggle back off — `runAI` stays `true`,
contradicting the claim that every failing submit ends with
`enabled = false`. -/
theorem startAIProcessing_failure_cex :
    ¬ (((startAIProcessing freshEnabledSession (.httpError 500)).aiError.isSome = true) ∧
       (startAIProcessing freshEnabledSession (.httpError 500)).aiTaskId = none ∧
       (startAIProcessing freshEnabledSession (.httpError 500)).runAI = false) := by
  decide

/-- C3 (amended): every failing submission leaves the session with
`aiError` set and the task id and toggle unchanged (so a failed submit
from a fresh enabled session ends with an error set, no task, and the
toggle still on — never toggle on with no task and no visible error). -/
theorem startAIProcessing_failure (s : AiState) (o : SubmitOutcome)
    (h : isSubmitFailure o = true) :
    (startAIProcessing s o).aiError.isSome = true ∧
      (startAIProcessing s o).aiTaskId = s.aiTaskId ∧
      (startAIProcessing s o).runAI = s.runAI := by
  match o with
  | .thrown msg => exact ⟨rfl, rfl, rfl⟩
  | .httpError c => exact ⟨rfl, rfl, rfl⟩
  | .ok d =>
    simp only [isSubmitFailure, Bool.not_eq_eq_eq_not, Bool.not_true] at h
    simp [startAIProcessing, h]

/-- Witness for C3 (amended) at the HTTP 500 outcome. -/
theorem startAIProcessing_failure_witness :
    isSubmitFailure (.httpError 500) = true ∧
      ((startAIProcessing freshEnabledSession (.httpError 500)).aiError.isSome = true ∧
        (startAIProcessing freshEnabledSession (.httpError 500)).aiTaskId =
          freshEnabledSession.aiTaskId ∧
        (startAIProcessing freshEnabledSession (.httpError 500)).runAI =
          freshEnabledSession.runAI) :=
  ⟨by decide, startAIProcessing_failure freshEnabledSession (.httpError 500) (by decide)⟩

/-- C6: a successful submit response `{success: true, data: {task_id: t}}`
with `t` non-empty transitions the session to hold `taskId = t` together
with the synthesized snapshot PENDING / progress 0 (no poll response is
involved: this is the submit transformer itself). -/
theorem startAIProcessing_success (s : AiState) (t : String) (h : t ≠ "") :
    (startAIProcessing s
        (.ok { success := true, data := some { task_id := some t }, message := none })).aiTaskId
        = some t ∧
      (startAIProcessing s
        (.ok { success := true, data := some { task_id := some t }, message := none })).aiTaskStatus
        = some { status := "PENDING", progress := 0, result := none, error := none } := by
  simp [startAIProcessing, jsTruthyStrOpt, h]

/-- Witness for C6 at `t = "abc123"`. -/
theorem startAIProcessing_success_witness :
    "abc123" ≠ "" ∧
      ((startAIProcessing freshEnabledSession
        (.ok { success := true, data := some { task_id := some "abc123" }, message := none })).aiTaskId
        = some "abc123" ∧
      (startAIProcessing freshEnabledSession
        (.ok { success := true, data := some { task_id := some "abc123" }, message := none })).aiTaskStatus
        = some { status := "PENDING", progress := 0, result := none, error := none }) :=
  ⟨by decide, startAIProcessing_success freshEnabledSession "abc123" (by decide)⟩

/-- The parsed body of a poll response: `{ success, data: Task }`. -/
structure PollResponse where
  success : Bool
  data : Option AITaskStatus
  deriving DecidableEq

/-- Outcome of one poll round-trip: a thrown error (network failure or a
body that fails to parse) or a parsed body. -/
inductive PollOutcome where
  | thrown (msg : String)
  | ok (d : PollResponse)
  deriving DecidableEq

/-- VideoPlayer.tsx `checkAITaskStatus` (lines 127-157) as a state
transformer over the poll outcome: returns early with no task id; a
thrown error is only logged; a parsed body updates `aiTaskStatus` exactly
when `success` holds and `data` is present, and is only logged
otherwise. -/
def checkAITaskStatus (s : AiState) (o : PollOutcome) : AiState :=
  if s.aiTaskId.isNone then s
  else
    match o with
    | .thrown _ => s
    | .ok d =>
      if d.success && d.data.isSome then { s with aiTaskStatus := d.data }
      else s

/-- Whether a poll outcome is a transient failure: thrown, or a parsed
body without `success` or without `data`. -/
def isPollTransientFailure (o : PollOutcome) : Bool :=
  match o with
  | .thrown _ => true
  | .ok d => !(d.success && d.data.isSome)

/-- C7: a transiently failing poll round-trip leaves the whole session
unchanged — in particular `aiTaskStatus` (lastKnownStatus), `aiTaskId` and
`aiError` keep their values and the polling guard is unaltered, so the
interval is not stopped. -/
theorem checkAITaskStatus_transient_failure (s : AiState) (o : PollOutcome)
    (h : isPollTransientFailure o = true) : checkAITaskStatus s o = s := by
  match o with
  | .thrown msg => simp [checkAITaskStatus]
  | .ok d =>
    simp only [isPollTransientFailure, Bool.not_eq_eq_eq_not, Bool.not_true] at h
    simp [checkAITaskStatus, h]

/-- Witness for C7 at a running session and a network error. -/
theorem checkAITaskStatus_transient_failure_witness :
    isPollTransientFailure (.thrown "Failed to fetch") = true ∧
      checkAITaskStatus
        { runAI := true, aiTaskId := some "abc123"
          aiTaskStatus := some { status := "RUNNING", progress := 1/2
                                 result := none, error := none }
          aiError := none }
        (.thrown "Failed to fetch")
      = { runAI := true, aiTaskId := some "abc123"
          aiTaskStatus := some { status := "RUNNING", progress := 1/2
                                 result := none, error := none }
          aiError := none } :=
  ⟨by decide,
   checkAITaskStatus_transient_failure
     { runAI := true, aiTaskId := some "abc123"
       aiTaskStatus := some { status := "RUNNING", progress := 1/2
                              result := none, error := none }
       aiError := none }
     (.thrown "Failed to fetch") (by decide)⟩

/-- VideoPlayer.tsx `getStatusIndicator` (lines 185-194): success when
COMPLETED with a resolvable visualization URL, else error when FAILED or
an `aiError` is set, else pending when RUNNING or PENDING, else empty. -/
def getStatusIndicator (s : AiState) : String :=
  if statusIs s.aiTaskStatus "COMPLETED" && (getVisualizationUrl s.aiTaskStatus).isSome then
    "success"
  else if statusIs s.aiTaskStatus "FAILED" || jsTruthyStrOpt s.aiError then
    "error"
  else if statusIs s.aiTaskStatus "RUNNING" || statusIs s.aiTaskStatus "PENDING" then
    "pending"
  else
    "empty"

/-- A session whose poll returned `{status: COMPLETED, result: {}}`
(no visualization key) with no submission error. -/
def c5Session : AiState :=
  { runAI := true, aiTaskId := some "abc123"
    aiTaskStatus := some { status := "COMPLETED", progress := 1
                           result := some { visualization := none
                                            visualization_error := none }
                           error := none }
    aiError := none }

/-- C5 counterexample: for a COMPLETED snapshot with an empty result (no
visualization key) and no submission error, no visualization URL
resolves, yet the indicator is "empty", not "error" as the claim
states. -/
theorem getStatusIndicator_error_cex :
    (statusIs c5Session.aiTaskStatus "COMPLETED" = true ∧
      getVisualizationUrl c5Session.aiTaskStatus = none) ∧
      getStatusIndicator c5Session = "empty" ∧
      getStatusIndicator c5Session ≠ "error" := by
  decide

/-- C5 (amended): the indicator is "error" exactly when the last known
status is FAILED or a submission error is set, and the session is not a
COMPLETED one with a resolvable visualization URL; a COMPLETED snapshot
with no resolvable URL and no error yields "empty".  Error still takes
precedence over pending: the RUNNING/PENDING test is only reached when
the error test fails. -/
theorem getStatusIndicator_error_iff (s : AiState) :
    getStatusIndicator s = "error" ↔
      ((statusIs s.aiTaskStatus "FAILED" = true ∨ jsTruthyStrOpt s.aiError = true) ∧
        ¬ (statusIs s.aiTaskStatus "COMPLETED" = true ∧
            (getVisualizationUrl s.aiTaskStatus).isSome = true)) := by
  unfold getStatusIndicator
  rcases hA : statusIs s.aiTaskStatus "COMPLETED" && (getVisualizationUrl s.aiTaskStatus).isSome
  · rcases hB : statusIs s.aiTaskStatus "FAILED" || jsTruthyStrOpt s.aiError
    · simp only [hA, hB, Bool.false_eq_true, if_false]
      rcases hC : statusIs s.aiTaskStatus "RUNNING" || statusIs s.aiTaskStatus "PENDING" <;>
        simp_all [Bool.or_eq_false_iff]
    · simp only [hA, hB, Bool.false_eq_true, if_false, if_true]
      simp_all [Bool.and_eq_false_iff, Bool.or_eq_true]
  · simp only [hA, if_true]
    simp_all [Bool.and_eq_true]

/-- The reset useEffect of VideoPlayer.tsx (lines 47-59) as a state
transformer: when the toggle is on with no task and no error it starts a
submission (no synchronous state change); when the toggle is off and a
task id is held it replaces the whole session with the cleared state;
otherwise it does nothing. -/
def runAIEffect (s : AiState) : AiState :=
  if s.runAI && s.aiTaskId.isNone && !(jsTruthyStrOpt s.aiError) then s
  else if !s.runAI && s.aiTaskId.isSome then
    { runAI := false, aiTaskId := none, aiTaskStatus := none, aiError := none }
  else s

/-- Turning the enabled toggle off: the checkbox handler writes
`runAI := false` and the effect then runs on the updated session. -/
def toggleOff (s : AiState) : AiState :=
  runAIEffect { s with runAI := false }

/-- A session left over by a failed submission: toggle on, no task id,
an error message set. -/
def c4Session : AiState :=
  { runAI := true, aiTaskId := none, aiTaskStatus := none
    aiError := some "HTTP error! status: 500" }

/-- C4 counterexample: turning the toggle off on a session holding a
submission error but no task id does not clear the error — the reset
branch only fires when a task id is present, so the claim that toggling
off clears taskId, lastKnownStatus and submissionError unconditionally is
false at this state. -/
theorem toggleOff_clears_cex :
    ¬ ((toggleOff c4Session).aiTaskId = none ∧
       (toggleOff c4Session).aiTaskStatus = none ∧
       (toggleOff c4Session).aiError = none) := by
  decide

/-- C4 (amended): turning the enabled toggle off clears taskId,
lastKnownStatus and submissionError when a task id is held; when no task
id is held the effect leaves the rest of the session untouched (only the
toggle itself goes off), so a submission error with no task survives the
toggle. -/
theorem toggleOff_clears (s : AiState) :
    (s.aiTaskId.isSome = true →
      toggleOff s =
        { runAI := false, aiTaskId := none, aiTaskStatus := none, aiError := none }) ∧
    (s.aiTaskId.isSome = false → toggleOff s = { s with runAI := false }) := by
  constructor
  · intro h
    simp [toggleOff, runAIEffect, h]
  · intro h
    have hid : s.aiTaskId = none := by
      cases hx : s.aiTaskId with
      | none => rfl
      | some t => rw [hx] at h; simp at h
    simp [toggleOff, runAIEffect, hid]

/-- Witness for C4 (amended), applying both parts at concrete sessions:
an active-task session is fully cleared, and the failed-submission
session only loses its toggle. -/
theorem toggleOff_clears_witness :
    ((some "abc123" : Option String).isSome = true →
      toggleOff { runAI := true, aiTaskId := some "abc123"
                  aiTaskStatus := none, aiError := none } =
        { runAI := false, aiTaskId := none, aiTaskStatus := none, aiError := none }) ∧
    ((c4Session.aiTaskId.isSome = false) →
      toggleOff c4Session = { c4Session with runAI := false }) :=
  ⟨fun h =>
    (toggleOff_clears { runAI := true, aiTaskId := some "abc123"
                        aiTaskStatus := none, aiError := none }).1 h,
   fun h => (toggleOff_clears c4Session).2 h⟩

/-- JS `String.prototype.replace` with a string pattern, on character
lists: replaces only the FIRST occurrence of `pat` by `rep`; an empty
pattern matches at position 0. -/
def replaceFirst (pat rep : List Char) : List Char → List Char
  | [] => if pat.isEmpty then rep else []
  | c :: cs =>
    if pat.isPrefixOf (c :: cs) then rep ++ (c :: cs).drop pat.length
    else c :: replaceFirst pat rep cs

/-- Whether `pat` occurs as a contiguous substring of a character list. -/
def containsSub (pat : List Char) : List Char → Bool
  | [] => pat.isEmpty
  | c :: cs => pat.isPrefixOf (c :: cs) || containsSub pat cs

/-- VideoPlayer.tsx `getVideoRelativePath` (lines 42-44):
`episodePath.replace("/video/", "")`, stripping the routing prefix. -/
def getVideoRelativePath (episodePath : String) : String :=
  String.mk (replaceFirst "/video/".data [] episodePath.data)

/-- App.tsx `handleEpisodeClick` (lines 93-101): the playback path is
`"/video/" + scenarioId + "/" + sceneId + "/" + episodeId`. -/
def handleEpisodeClickPath (scenarioId sceneId episodeId : String) : String :=
  "/video/" ++ scenarioId ++ "/" ++ sceneId ++ "/" ++ episodeId

/-- Replacing the first occurrence of a non-empty pattern in a list that
starts with that very pattern deletes exactly that leading copy. -/
theorem replaceFirst_append_self (pat rest : List Char) (hne : pat ≠ []) :
    replaceFirst pat [] (pat ++ rest) = rest := by
  match pat, hne with
  | p :: ps, _ =>
    have hpre : (p :: ps).isPrefixOf ((p :: ps) ++ rest) = true := by
      rw [List.isPrefixOf_iff_prefix]
      exact List.prefix_append _ _
    show replaceFirst (p :: ps) [] (p :: (ps ++ rest)) = rest
    simp only [replaceFirst]
    rw [List.cons_append] at hpre
    simp [hpre, List.drop_left]

/-- C8: for identifiers free of the routing prefix "/video/", composing
the playback-path construction of `handleEpisodeClick` with
`getVideoRelativePath` recovers exactly the server-relative path
`scenarioId ++ "/" ++ sceneId ++ "/" ++ episodeId`. -/
theorem getVideoRelativePath_roundtrip
    (scenarioId sceneId episodeId : String)
    (_hA : containsSub "/video/".data scenarioId.data = false)
    (_hB : containsSub "/video/".data sceneId.data = false)
    (_hC : containsSub "/video/".data episodeId.data = false) :
    getVideoRelativePath (handleEpisodeClickPath scenarioId sceneId episodeId) =
      scenarioId ++ "/" ++ sceneId ++ "/" ++ episodeId := by
  unfold getVideoRelativePath handleEpisodeClickPath
  have hdata :
      ("/video/" ++ scenarioId ++ "/" ++ sceneId ++ "/" ++ episodeId).data =
        "/video/".data ++ (scenarioId ++ "/" ++ sceneId ++ "/" ++ episodeId).data := by
    simp [String.data_append, List.append_assoc]
  rw [hdata, replaceFirst_append_self _ _ (by decide)]

/-- Witness for C8 at the spec's scenario identifiers
s1 / sc1 / ep1.mp4. -/
theorem getVideoRelativePath_roundtrip_witness :
    containsSub "/video/".data "s1".data = false ∧
      getVideoRelativePath (handleEpisodeClickPath "s1" "sc1" "ep1.mp4") =
        "s1" ++ "/" ++ "sc1" ++ "/" ++ "ep1.mp4" :=
  ⟨by decide,
   getVideoRelativePath_roundtrip "s1" "sc1" "ep1.mp4"
     (by decide) (by decide) (by decide)⟩

/-- An annotation placed on the interactive video player
(InteractiveVideoPlayer.tsx, interface Annotation): percentage
coordinates, text and a video timestamp. -/
structure Annotation where
  id : String
  x : ℚ
  y : ℚ
  text : String
  timestamp : ℚ
  deriving DecidableEq

/-- The bounding client rect of the player container. -/
structure ClickRect where
  width : ℚ
  height : ℚ
  deriving DecidableEq

/-- The state of the interactive player that the click handlers touch;
`editingAnnot` models the source's editingAnnotation state variable. -/
structure PlayerState where
  annotations : List Annotation
  isEditing : Bool
  editingAnnot : Option Annotation
  tempText : String
  deriving DecidableEq

/-- InteractiveVideoPlayer.tsx `handleVideoClick` (lines 23-51): a click
at container offset (x, y) is ignored when y exceeds 80% of the container
height (the controls area); otherwise a new annotation is appended with
percentage coordinates, and editing of it starts. -/
def handleVideoClick (rect : ClickRect) (x y : ℚ) (newId : String)
    (currentTime : ℚ) (s : PlayerState) : PlayerState :=
  if y > rect.height * (8 / 10) then s
  else
    let newAnnot : Annotation :=
      { id := newId
        x := x / rect.width * 100
        y := y / rect.height * 100
        text := ""
        timestamp := currentTime }
    { s with
      annotations := s.annotations ++ [newAnnot]
      editingAnnot := some newAnnot
      tempText := ""
      isEditing := true }

/-- C9: for any click at an offset inside a container of positive
dimensions, a click in the bottom 20% of the container changes nothing,
and every annotation present after the click is either an old one or has
percentage coordinates with x in [0, 100] and y in [0, 80]; consequently
the invariant "no annotation lies in the bottom 20%" is preserved. -/
theorem handleVideoClick_bounds (rect : ClickRect) (x y : ℚ)
    (newId : String) (currentTime : ℚ) (s : PlayerState)
    (hw : 0 < rect.width) (hh : 0 < rect.height)
    (hx0 : 0 ≤ x) (hxw : x ≤ rect.width) (hy0 : 0 ≤ y) (_hyh : y ≤ rect.height) :
    (y > rect.height * (8 / 10) →
      handleVideoClick rect x y newId currentTime s = s) ∧
    (∀ a ∈ (handleVideoClick rect x y newId currentTime s).annotations,
      a ∈ s.annotations ∨ (0 ≤ a.x ∧ a.x ≤ 100 ∧ 0 ≤ a.y ∧ a.y ≤ 80)) := by
  constructor
  · intro hy
    simp [handleVideoClick, hy]
  · intro a ha
    by_cases hgt : y > rect.height * (8 / 10)
    · simp only [handleVideoClick, if_pos hgt] at ha
      exact Or.inl ha
    · simp only [handleVideoClick, if_neg hgt, List.mem_append,
        List.mem_singleton] at ha
      rcases ha with ha | ha
      · exact Or.inl ha
      · right
        subst ha
        push_neg at hgt
      -- accepted click: y ≤ 0.8 * height, so the percentage lands in [0, 80]
        refine ⟨?_, ?_, ?_, ?_⟩
        · exact mul_nonneg (div_nonneg hx0 hw.le) (by norm_num)
        · calc x / rect.width * 100 ≤ 1 * 100 := by
                exact mul_le_mul_of_nonneg_right ((div_le_one hw).mpr hxw) (by norm_num)
            _ = 100 := by norm_num
        · exact mul_nonneg (div_nonneg hy0 hh.le) (by norm_num)
        · have hdiv : y / rect.height ≤ 8 / 10 := by
            rw [div_le_iff₀ hh]
            calc y ≤ rect.height * (8 / 10) := hgt
              _ = 8 / 10 * rect.height := by ring
          calc y / rect.height * 100 ≤ 8 / 10 * 100 :=
                mul_le_mul_of_nonneg_right hdiv (by norm_num)
            _ = 80 := by norm_num

/-- The empty interactive player state. -/
def emptyPlayerState : PlayerState :=
  { annotations := [], isEditing := false, editingAnnot := none, tempText := "" }

/-- Witness for C9 at a 100x100 container with a click at (50, 50). -/
theorem handleVideoClick_bounds_witness :
    (((50 : ℚ) > (100 : ℚ) * (8 / 10) →
      handleVideoClick { width := 100, height := 100 } 50 50 "1" 0 emptyPlayerState
        = emptyPlayerState) ∧
    (∀ a ∈ (handleVideoClick { width := 100, height := 100 } 50 50 "1" 0
        emptyPlayerState).annotations,
      a ∈ emptyPlayerState.annotations ∨
        (0 ≤ a.x ∧ a.x ≤ 100 ∧ 0 ≤ a.y ∧ a.y ≤ 80))) :=
  handleVideoClick_bounds { width := 100, height := 100 } 50 50 "1" 0
    emptyPlayerState (by norm_num) (by norm_num) (by norm_num) (by norm_num)
    (by norm_num) (by norm_num)

/-- The source's `editingAnnotation?.id === id` test (optional chaining:
false when no annotation is being edited). -/
def editingMatches (oa : Option Annotation) (id : String) : Bool :=
  match oa with
  | none => false
  | some a => a.id == id

/-- InteractiveVideoPlayer.tsx handleDeleteAnnotation (lines 60-67):
filters out annotations with the given id, and closes editing mode when
the annotation being edited has that id. -/
def handleDeleteAnnot (id : String) (s : PlayerState) : PlayerState :=
  let s1 : PlayerState :=
    { s with annotations := s.annotations.filter (fun ann => !(ann.id == id)) }
  if editingMatches s.editingAnnot id then
    { s1 with isEditing := false, editingAnnot := none }
  else s1

/-- C10: handleDeleteAnnotation (here `handleDeleteAnnot`) keeps exactly
the annotations whose id
differs from the given id (each kept annotation is unchanged in all
fields, by membership as a whole record); when the edited annotation has
that id editing closes, otherwise the editing state is untouched. -/
theorem handleDeleteAnnotation_spec (id : String) (s : PlayerState) :
    (∀ a : Annotation,
      a ∈ (handleDeleteAnnot id s).annotations ↔
        (a ∈ s.annotations ∧ a.id ≠ id)) ∧
    (editingMatches s.editingAnnot id = true →
      (handleDeleteAnnot id s).isEditing = false ∧
        (handleDeleteAnnot id s).editingAnnot = none) ∧
    (editingMatches s.editingAnnot id = false →
      (handleDeleteAnnot id s).isEditing = s.isEditing ∧
        (handleDeleteAnnot id s).editingAnnot = s.editingAnnot) := by
  refine ⟨?_, ?_, ?_⟩
  · intro a
    unfold handleDeleteAnnot
    by_cases hm : editingMatches s.editingAnnot id = true <;>
      simp [hm, List.mem_filter]
  · intro hm
    simp [handleDeleteAnnot, hm]
  · intro hm
    simp [handleDeleteAnnot, hm]

/-- An annotation with id "1" at the origin. -/
def ann1 : Annotation :=
  { id := "1", x := 10, y := 20, text := "note", timestamp := 3 / 2 }

/-- A player state editing annotation "1". -/
def editingState1 : PlayerState :=
  { annotations := [ann1], isEditing := true
    editingAnnot := some ann1, tempText := "note" }

/-- Witness for C10: deleting id "1" from a state editing annotation "1"
empties the list and closes editing. -/
theorem handleDeleteAnnotation_spec_witness :
    (ann1 ∈ (handleDeleteAnnot "1" editingState1).annotations ↔
      (ann1 ∈ editingState1.annotations ∧ ann1.id ≠ "1")) ∧
    (editingMatches editingState1.editingAnnot "1" = true →
      (handleDeleteAnnot "1" editingState1).isEditing = false ∧
        (handleDeleteAnnot "1" editingState1).editingAnnot = none) :=
  ⟨(handleDeleteAnnotation_spec "1" editingState1).1 ann1,
   fun hm => (handleDeleteAnnotation_spec "1" editingState1).2.1 hm⟩
